import Mathlib

/-!
Shallow embedding of the cloud-backup flow of
`src/integrations/webui/app.py` (`CloudBackupManager`, `init_db`).

Modelling conventions:
* The SQLite tables touched by this flow (`cloud_credentials`,
  `backup_jobs`, `backup_history`) are lists of row records kept in
  insertion (rowid) order.  The `cloud_credentials` table has no unique
  constraint other than its `INTEGER PRIMARY KEY AUTOINCREMENT` id, so a
  SQLite `SELECT` without `ORDER BY` on it scans in rowid order and
  `fetchone()` yields the first matching row in insertion order; this is
  embedded as `List.find?`.  `INSERT OR REPLACE` on this table never hits
  a conflict (the only constrained column, `id`, is not supplied), so it
  is embedded as a plain append.
* Python's `json.dumps` on save and `json.loads` on read compose to the
  identity on JSON-representable dicts, so a serialized column is
  modelled as holding the JSON value itself (type `Json` below).
* Calls out of the process (boto3, the Drive SDK, the `rclone` and
  `easyinstall` commands, the clock, `os.path.getsize`) are modelled as
  an oracle record `Env` supplied to the functions; each oracle field
  returns `Except`/`Bool` describing whether the external call succeeded
  and what it produced.
-/

/-- A JSON value, as produced by Python's `json.loads`.  Numbers are kept
abstract as integers; nothing in the verified flow computes with them. -/
inductive Json where
  | null : Json
  | bool : Bool → Json
  | num : Int → Json
  | str : String → Json
  | arr : List Json → Json
  | obj : List (String × Json) → Json

/-- One row of the `cloud_credentials` table (columns used by the flow:
`user_id`, `provider`, `credentials`, `name`, `is_default`). -/
structure CredRow where
  user_id : Nat
  provider : String
  credentials : Json
  name : Option String
  is_default : Bool

/-- Provider-specific upload parameters from a job's destination config:
the keys read by `create_backup`'s dispatch (`config['bucket']`,
`config.get('prefix', '')`, `config.get('folder_id')`,
`config['remote']`, `config['path']`). -/
structure UploadConfig where
  bucket : String
  /-- the `'prefix'` key of the config dict (`none` when absent). -/
  prefixKey : Option String
  folder_id : Option String
  remote : String
  path : String

/-- One row of the `backup_jobs` table, restricted to the columns the
backup flow reads: `id` and the `destination` TEXT column.
`destination = none` models a NULL or empty string (falsy in
`if dest and dest[0]`); `destination = some d` models a truthy JSON
text parsing to the provider→config mapping `d`, in key insertion
order (`some []` is the text `"{}"`). -/
structure JobRow where
  id : Nat
  destination : Option (List (String × UploadConfig))

/-- One row of the `backup_history` table (columns inserted by
`create_backup`).  The `location` TEXT column holds the JSON list of
location URIs. -/
structure HistRow where
  job_id : Option Nat
  start_time : String
  end_time : String
  size : Nat
  status : String
  location : List String

/-- The database state: the three tables the backup flow touches, each
in rowid (insertion) order. -/
structure DB where
  cloud_credentials : List CredRow
  backup_jobs : List JobRow
  backup_history : List HistRow

/-- Oracle for everything outside the process: external commands, cloud
SDK calls, the clock and the filesystem. -/
structure Env where
  /-- `datetime.now().strftime('%Y%m%d-%H%M%S')` at the start of
  `create_backup`. -/
  timestamp : String
  /-- `datetime.now().isoformat()` at the history insert. -/
  endTime : String
  /-- Whether `subprocess.run(['easyinstall', 'backup', ...], check=True)`
  exits 0 (`false` models a nonzero exit, which raises
  `CalledProcessError`). -/
  snapshotOk : Bool
  /-- `os.path.getsize(backup_file)` after a successful snapshot. -/
  fileSize : Nat
  /-- The boto3 client construction plus `s3.upload_file` for given
  credentials, file, bucket and key; `.error` models any exception. -/
  s3Call : Json → String → String → String → Except String Unit
  /-- The Drive SDK calls for given credentials, file and optional parent
  folder; `.ok fid` yields the created file's id. -/
  gdriveCall : Json → String → Option String → Except String String
  /-- `subprocess.run(['rclone', 'copy', file, remote ++ ":" ++ path])`;
  `.error stderr` models a nonzero return code. -/
  rcloneCall : String → String → String → Except String Unit

/-- `TEMP_DIR` from the module configuration. -/
def TEMP_DIR : String := "/tmp/easyinstall-webui"

/-- Characters of the current path component; resets at each `/`. -/
def basenameAux (acc : List Char) : List Char → List Char
  | [] => acc.reverse
  | c :: cs => if c = '/' then basenameAux [] cs else basenameAux (c :: acc) cs

/-- `os.path.basename`: the part of the path after the last `/`. -/
def basename (p : String) : String :=
  ⟨basenameAux [] p.data⟩

/-- `CloudBackupManager.get_credentials(provider, default)`: with
`default` set, fetch the first row of the owner flagged default
(ignoring `provider`); otherwise the first row matching
`(user_id, provider)`.  The query has no `ORDER BY`; SQLite scans this
table in rowid order, so `fetchone()` is the first match in insertion
order.  Returns the parsed credentials blob. -/
def get_credentials (db : DB) (user_id : Nat) (provider : String)
    (default : Bool) : Option Json :=
  if default then
    (db.cloud_credentials.find? fun r =>
      r.user_id == user_id && r.is_default).map (·.credentials)
  else
    (db.cloud_credentials.find? fun r =>
      r.user_id == user_id && r.provider == provider).map (·.credentials)

/-- `CloudBackupManager.save_credentials(provider, credentials, name,
make_default)`: when `make_default` is set, first
`UPDATE cloud_credentials SET is_default = 0 WHERE user_id = ?`, then
`INSERT OR REPLACE` of the new row — which, absent any satisfiable
unique constraint, appends a fresh row. -/
def save_credentials (db : DB) (user_id : Nat) (provider : String)
    (credentials : Json) (name : Option String) (make_default : Bool) :
    DB :=
  let rows :=
    if make_default then
      db.cloud_credentials.map fun r =>
        if r.user_id == user_id then { r with is_default := false } else r
    else
      db.cloud_credentials
  { db with cloud_credentials :=
      rows ++ [⟨user_id, provider, credentials, name, make_default⟩] }

/-- `CloudBackupManager.backup_to_s3`: raises when no s3 credentials are
stored for the owner; otherwise builds the client, uploads under
`{prefix}/{basename(file)}` and returns `s3://bucket/key`. -/
def backup_to_s3 (env : Env) (db : DB) (user_id : Nat)
    (backup_file bucket_name prefixKey : String) : Except String String :=
  match get_credentials db user_id "s3" false with
  | none => .error "S3 credentials not configured"
  | some creds =>
    let key := prefixKey ++ "/" ++ basename backup_file
    match env.s3Call creds backup_file bucket_name key with
    | .ok _ => .ok ("s3://" ++ bucket_name ++ "/" ++ key)
    | .error e => .error e

/-- `CloudBackupManager.backup_to_gdrive`: raises when no gdrive
credentials are stored for the owner; otherwise uploads through the
Drive SDK and returns `gdrive://{file-id}`. -/
def backup_to_gdrive (env : Env) (db : DB) (user_id : Nat)
    (backup_file : String) (folder_id : Option String) :
    Except String String :=
  match get_credentials db user_id "gdrive" false with
  | none => .error "Google Drive credentials not configured"
  | some creds =>
    match env.gdriveCall creds backup_file folder_id with
    | .ok fid => .ok ("gdrive://" ++ fid)
    | .error e => .error e

/-- `CloudBackupManager.backup_to_rclone`: shells out to
`rclone copy`; a nonzero exit raises, otherwise returns
`rclone://remote:path/basename(file)`.  Note: unlike the s3 and gdrive
variants, this method performs no stored-credential lookup at all. -/
def backup_to_rclone (env : Env) (backup_file remote_name remote_path :
    String) : Except String String :=
  match env.rcloneCall backup_file remote_name remote_path with
  | .ok _ =>
    .ok ("rclone://" ++ remote_name ++ ":" ++ remote_path ++ "/" ++
      basename backup_file)
  | .error e => .error ("Rclone failed: " ++ e)

/-- The dispatch inside `create_backup`'s fan-out loop: which adapter
the `if provider == ... elif ...` chain runs for one
`(provider, config)` pair, and its outcome.  `none` means no branch
matched (unknown provider tag — the chain has no `else`). -/
def runAdapter (env : Env) (db : DB) (user_id : Nat)
    (backup_file : String) (provider : String) (config : UploadConfig) :
    Option (Except String String) :=
  if provider == "s3" then
    some (backup_to_s3 env db user_id backup_file config.bucket
      (config.prefixKey.getD ""))
  else if provider == "gdrive" then
    some (backup_to_gdrive env db user_id backup_file config.folder_id)
  else if provider == "rclone" then
    some (backup_to_rclone env backup_file config.remote config.path)
  else
    none

/-- One iteration of the fan-out loop, threading the Python locals
`locations` and `url`.  `url` starts the loop unbound (`none`) and is
only assigned by a branch that completes; on an unknown provider the
chain assigns nothing and `locations.append(url)` either re-appends the
stale `url` or raises `UnboundLocalError` (caught by the
`except Exception` like any upload failure). -/
def uploadStep (env : Env) (db : DB) (user_id : Nat)
    (backup_file : String) (acc : List String × Option String)
    (pc : String × UploadConfig) : List String × Option String :=
  match runAdapter env db user_id backup_file pc.1 pc.2 with
  | some (.ok u) => (acc.1 ++ [u], some u)
  | some (.error _) => acc
  | none =>
    match acc.2 with
    | some u => (acc.1 ++ [u], some u)
    | none => acc

/-- The destination config `create_backup` loops over:
`SELECT destination FROM backup_jobs WHERE id = ?` (a NULL `job_id`
matches no row), guarded by `if dest and dest[0]`.  `none` means the
loop is skipped. -/
def jobDest (db : DB) (job_id : Option Nat) :
    Option (List (String × UploadConfig)) :=
  match job_id with
  | none => none
  | some j =>
    match db.backup_jobs.find? fun r => r.id == j with
    | none => none
    | some r => r.destination

/-- The timestamp-qualified artifact path
`f"{TEMP_DIR}/backup-{timestamp}.tar.gz"`. -/
def backupFilePath (env : Env) : String :=
  TEMP_DIR ++ "/backup-" ++ env.timestamp ++ ".tar.gz"

/-- `CloudBackupManager.create_backup(job_id)`: runs the snapshot
command, fans the artifact out, inserts one history row and returns
the artifact path with the successful locations, paired with the
database state on return (unchanged on the error path). -/
def create_backup (env : Env) (db : DB) (user_id : Nat)
    (job_id : Option Nat) :
    Except String (String × List String) × DB :=
  let backup_file := backupFilePath env
  if env.snapshotOk then
    let destList := (jobDest db job_id).getD []
    let locations :=
      (destList.foldl (uploadStep env db user_id backup_file)
        ([], none)).1
    let row : HistRow :=
      ⟨job_id, env.timestamp, env.endTime, env.fileSize, "completed",
        locations⟩
    (.ok (backup_file, locations),
      { db with backup_history := db.backup_history ++ [row] })
  else
    (.error "Command returned non-zero exit status", db)

/-! ### Concrete fixtures used by witnesses -/

/-- A concrete external environment in which every external call
succeeds. -/
def envOk : Env where
  timestamp := "20250101-120000"
  endTime := "2025-01-01T12:00:05"
  snapshotOk := true
  fileSize := 1024
  s3Call := fun _ _ _ _ => .ok ()
  gdriveCall := fun _ _ _ => .ok "FILEID"
  rcloneCall := fun _ _ _ => .ok ()

/-- Like `envOk`, but the snapshot command exits nonzero. -/
def envSnapFail : Env := { envOk with snapshotOk := false }

/-- Like `envOk`, but every upload call fails. -/
def envUploadsFail : Env :=
  { envOk with
    s3Call := fun _ _ _ _ => .error "connection refused"
    gdriveCall := fun _ _ _ => .error "invalid_grant"
    rcloneCall := fun _ _ _ => .error "remote not found" }

/-- An empty database. -/
def dbEmpty : DB := ⟨[], [], []⟩

/-! ### Helper lemmas -/

/-- If no destination in `l` dispatches to a successful upload, the
fan-out loop started with `locations = []` and `url` unbound collects
nothing and leaves `url` unbound. -/
theorem foldl_uploadStep_no_success (env : Env) (db : DB) (uid : Nat)
    (bf : String) (l : List (String × UploadConfig))
    (h : ∀ pc ∈ l, ∀ u,
      runAdapter env db uid bf pc.1 pc.2 ≠ some (Except.ok u)) :
    l.foldl (uploadStep env db uid bf) ([], none) = ([], none) := by
  induction l with
  | nil => rfl
  | cons pc rest ih =>
    rw [List.foldl_cons]
    have hstep : uploadStep env db uid bf ([], none) pc = ([], none) := by
      unfold uploadStep
      cases hra : runAdapter env db uid bf pc.1 pc.2 with
      | none => rfl
      | some r =>
        cases r with
        | ok u => exact absurd hra (h pc (List.mem_cons_self _ _) u)
        | error e => rfl
    rw [hstep]
    exact ih fun q hq => h q (List.mem_cons_of_mem _ hq)

/-! ### Claims -/

/-- C2: for every invocation of `create_backup` in which the external
snapshot command exits nonzero, `create_backup` raises a fatal error to
the caller and the database is returned unchanged — in particular no
`backup_history` row is inserted for that attempt. -/
theorem create_backup_snapshot_failure (env : Env) (db : DB) (uid : Nat)
    (jid : Option Nat) (h : env.snapshotOk = false) :
    (create_backup env db uid jid).1 =
      Except.error "Command returned non-zero exit status" ∧
    (create_backup env db uid jid).2 = db := by
  simp [create_backup, h]

/-- Witness for C2 at a concrete environment and database. -/
theorem create_backup_snapshot_failure_witness :
    (create_backup envSnapFail dbEmpty 1 none).1 =
      Except.error "Command returned non-zero exit status" ∧
    (create_backup envSnapFail dbEmpty 1 none).2 = dbEmpty :=
  create_backup_snapshot_failure envSnapFail dbEmpty 1 none rfl

/-- C3: every invocation of `create_backup` that passes the snapshot
step appends exactly one `backup_history` row; its status is
`"completed"`, and when every configured upload fails the stored
location list is empty. -/
theorem create_backup_one_history_row (env : Env) (db : DB) (uid : Nat)
    (jid : Option Nat) (h : env.snapshotOk = true) :
    ∃ locs : List String,
      (create_backup env db uid jid).2.backup_history =
        db.backup_history ++
          [⟨jid, env.timestamp, env.endTime, env.fileSize, "completed",
            locs⟩] ∧
      ((∀ pc ∈ (jobDest db jid).getD [], ∀ u,
          runAdapter env db uid (backupFilePath env) pc.1 pc.2 ≠
            some (Except.ok u)) → locs = []) := by
  refine ⟨(((jobDest db jid).getD []).foldl
      (uploadStep env db uid (backupFilePath env)) ([], none)).1, ?_, ?_⟩
  · simp [create_backup, h]
  · intro hfail
    rw [foldl_uploadStep_no_success env db uid (backupFilePath env) _ hfail]

/-- Witness for C3: every upload fails, one history row with empty
locations. -/
theorem create_backup_one_history_row_witness :
    ∃ locs : List String,
      (create_backup envUploadsFail dbEmpty 1 none).2.backup_history =
        dbEmpty.backup_history ++
          [⟨none, envUploadsFail.timestamp, envUploadsFail.endTime,
            envUploadsFail.fileSize, "completed", locs⟩] ∧
      ((∀ pc ∈ (jobDest dbEmpty none).getD [], ∀ u,
          runAdapter envUploadsFail dbEmpty 1
            (backupFilePath envUploadsFail) pc.1 pc.2 ≠
            some (Except.ok u)) → locs = []) :=
  create_backup_one_history_row envUploadsFail dbEmpty 1 none rfl

/-- C4: when the job has no destination config (no row for the job id,
`job_id` absent, or a NULL/empty/`{}` destination), `create_backup`
attempts no uploads, returns an empty location list, and still writes
one `backup_history` entry. -/
theorem create_backup_no_dest (env : Env) (db : DB) (uid : Nat)
    (jid : Option Nat) (h : env.snapshotOk = true)
    (hdest : jobDest db jid = none ∨ jobDest db jid = some []) :
    (create_backup env db uid jid).1 =
      Except.ok (backupFilePath env, []) ∧
    (create_backup env db uid jid).2.backup_history =
      db.backup_history ++
        [⟨jid, env.timestamp, env.endTime, env.fileSize, "completed",
          []⟩] := by
  rcases hdest with hd | hd <;> simp [create_backup, h, hd]

/-- Witness for C4 at `job_id = none`. -/
theorem create_backup_no_dest_witness :
    (create_backup envOk dbEmpty 1 none).1 =
      Except.ok (backupFilePath envOk, []) ∧
    (create_backup envOk dbEmpty 1 none).2.backup_history =
      dbEmpty.backup_history ++
        [⟨none, envOk.timestamp, envOk.endTime, envOk.fileSize,
          "completed", []⟩] :=
  create_backup_no_dest envOk dbEmpty 1 none rfl (Or.inl rfl)

/-- A destination config for the s3 adapter. -/
def cfgS3 : UploadConfig := ⟨"bkt", some "pre", none, "", ""⟩

/-- A destination config for the rclone adapter. -/
def cfgRclone : UploadConfig := ⟨"", none, none, "rem", "pth"⟩

/-- A destination config under an unknown provider tag. -/
def cfgFtp : UploadConfig := ⟨"", none, none, "", ""⟩

/-- A database with three jobs: job 7 has an s3 destination followed by
an rclone one; job 8 has an rclone destination followed by an unknown
`"ftp"` one; job 9 has only the unknown `"ftp"` destination.  No
credentials are stored, so the s3 adapter fails while rclone (which
checks no credentials) succeeds under `envOk`. -/
def dbJobs : DB :=
  ⟨[],
   [⟨7, some [("s3", cfgS3), ("rclone", cfgRclone)]⟩,
    ⟨8, some [("rclone", cfgRclone), ("ftp", cfgFtp)]⟩,
    ⟨9, some [("ftp", cfgFtp)]⟩],
   []⟩

/-- C1: when the job's destination config holds a provider *A* whose
upload raises and a provider *B* whose upload succeeds, `create_backup`
catches *A*'s failure without aborting *B*, returns exactly *B*'s URI,
and writes the history entry with status `"completed"`. -/
theorem create_backup_partial_failure_keeps_sibling
    (env : Env) (db : DB) (uid : Nat) (jid : Option Nat)
    (pA pB : String) (cA cB : UploadConfig) (eA uB : String)
    (h : env.snapshotOk = true)
    (hdest : jobDest db jid = some [(pA, cA), (pB, cB)])
    (hA : runAdapter env db uid (backupFilePath env) pA cA =
      some (Except.error eA))
    (hB : runAdapter env db uid (backupFilePath env) pB cB =
      some (Except.ok uB)) :
    (create_backup env db uid jid).1 =
      Except.ok (backupFilePath env, [uB]) ∧
    (create_backup env db uid jid).2.backup_history =
      db.backup_history ++
        [⟨jid, env.timestamp, env.endTime, env.fileSize, "completed",
          [uB]⟩] := by
  have hfold : [(pA, cA), (pB, cB)].foldl
      (uploadStep env db uid (backupFilePath env)) ([], none) =
      ([uB], some uB) := by
    simp [uploadStep, hA, hB]
  simp [create_backup, h, hdest, hfold]

/-- Witness for C1: job 7 of `dbJobs` under `envOk` — s3 fails for
missing credentials, rclone succeeds. -/
theorem create_backup_partial_failure_keeps_sibling_witness :
    (create_backup envOk dbJobs 1 (some 7)).1 =
      Except.ok (backupFilePath envOk,
        ["rclone://rem:pth/backup-20250101-120000.tar.gz"]) ∧
    (create_backup envOk dbJobs 1 (some 7)).2.backup_history =
      dbJobs.backup_history ++
        [⟨some 7, envOk.timestamp, envOk.endTime, envOk.fileSize,
          "completed", ["rclone://rem:pth/backup-20250101-120000.tar.gz"]⟩] :=
  create_backup_partial_failure_keeps_sibling envOk dbJobs 1 (some 7)
    "s3" "rclone" cfgS3 cfgRclone "S3 credentials not configured"
    "rclone://rem:pth/backup-20250101-120000.tar.gz" rfl rfl rfl rfl

/-- C10: an unknown provider tag matches no branch of the dispatch
chain, so `locations.append(url)` re-appends the stale `url` from a
preceding successful destination — that URI lands in the list twice —
while with the unknown provider first, `url` is unbound, the append
raises, is caught, and the destination contributes nothing. -/
theorem create_backup_unknown_provider_url_carry
    (env : Env) (db : DB) (uid : Nat) (jid1 jid2 : Option Nat)
    (pG pU : String) (cG cU : UploadConfig) (u : String)
    (h : env.snapshotOk = true)
    (hG : runAdapter env db uid (backupFilePath env) pG cG =
      some (Except.ok u))
    (hU : runAdapter env db uid (backupFilePath env) pU cU = none)
    (hd1 : jobDest db jid1 = some [(pG, cG), (pU, cU)])
    (hd2 : jobDest db jid2 = some [(pU, cU)]) :
    (create_backup env db uid jid1).1 =
      Except.ok (backupFilePath env, [u, u]) ∧
    (create_backup env db uid jid2).1 =
      Except.ok (backupFilePath env, []) := by
  have hf1 : [(pG, cG), (pU, cU)].foldl
      (uploadStep env db uid (backupFilePath env)) ([], none) =
      ([u, u], some u) := by
    simp [uploadStep, hG, hU]
  have hf2 : [(pU, cU)].foldl
      (uploadStep env db uid (backupFilePath env)) ([], none) =
      ([], none) := by
    simp [uploadStep, hU]
  constructor
  · simp [create_backup, h, hd1, hf1]
  · simp [create_backup, h, hd2, hf2]

/-- Witness for C10: jobs 8 and 9 of `dbJobs` under `envOk` — the
rclone URI is duplicated after the `"ftp"` entry of job 8, and job 9's
lone `"ftp"` entry contributes nothing. -/
theorem create_backup_unknown_provider_url_carry_witness :
    (create_backup envOk dbJobs 1 (some 8)).1 =
      Except.ok (backupFilePath envOk,
        ["rclone://rem:pth/backup-20250101-120000.tar.gz",
         "rclone://rem:pth/backup-20250101-120000.tar.gz"]) ∧
    (create_backup envOk dbJobs 1 (some 9)).1 =
      Except.ok (backupFilePath envOk, []) :=
  create_backup_unknown_provider_url_carry envOk dbJobs 1 (some 8)
    (some 9) "rclone" "ftp" cfgRclone cfgFtp
    "rclone://rem:pth/backup-20250101-120000.tar.gz" rfl rfl rfl rfl rfl

/-- After the default-clearing `UPDATE` over an owner's rows, no row of
that owner is still flagged default. -/
theorem find?_default_clear_eq_none (rows : List CredRow) (uid : Nat) :
    ((rows.map fun r =>
        if r.user_id == uid then { r with is_default := false } else r).find?
      fun r => r.user_id == uid && r.is_default) = none := by
  rw [List.find?_eq_none]
  intro x hx
  rcases List.mem_map.mp hx with ⟨r, _, rfl⟩
  cases h : (r.user_id == uid) <;> simp [h]

/-- The default-clearing `UPDATE` touches only the `is_default` column:
a `(user_id, provider)` lookup misses the possibly-cleared rows exactly
when it misses the originals. -/
theorem find?_userprov_clear_eq_none (rows : List CredRow) (uid : Nat)
    (p : String) (md : Bool)
    (h : ∀ r ∈ rows, ¬(r.user_id = uid ∧ r.provider = p)) :
    ((if md then
        rows.map fun r =>
          if r.user_id == uid then { r with is_default := false } else r
      else rows).find? fun r => r.user_id == uid && r.provider == p) =
      none := by
  rw [List.find?_eq_none]
  intro x hx
  cases md with
  | false =>
    rw [if_neg (by simp)] at hx
    intro hc
    rcases Bool.and_eq_true _ _ |>.mp hc with ⟨h1, h2⟩
    exact h x hx ⟨beq_iff_eq.mp h1, beq_iff_eq.mp h2⟩
  | true =>
    rw [if_pos rfl] at hx
    rcases List.mem_map.mp hx with ⟨r, hr, rfl⟩
    have hnot := h r hr
    intro hc
    rcases Bool.and_eq_true _ _ |>.mp hc with ⟨h1, h2⟩
    by_cases hu : (r.user_id == uid) = true
    · rw [if_pos hu] at h1 h2
      exact hnot ⟨beq_iff_eq.mp h1, beq_iff_eq.mp h2⟩
    · rw [if_neg hu] at h1 h2
      exact hnot ⟨beq_iff_eq.mp h1, beq_iff_eq.mp h2⟩

/-- C6: saving s3 credentials with `make_default`, then gdrive
credentials with `make_default`, leaves the gdrive row as the owner's
only default: the default-flag lookup returns the gdrive blob for any
`provider` argument, and no other row of the owner is flagged. -/
theorem save_default_owner_scoped (db : DB) (uid : Nat) (c1 c2 : Json)
    (n1 n2 : Option String) (p : String) :
    get_credentials
      (save_credentials (save_credentials db uid "s3" c1 n1 true)
        uid "gdrive" c2 n2 true) uid p true = some c2 ∧
    ∀ r ∈ (save_credentials (save_credentials db uid "s3" c1 n1 true)
        uid "gdrive" c2 n2 true).cloud_credentials,
      r.user_id = uid → r.is_default = true →
        r.provider = "gdrive" ∧ r.credentials = c2 := by
  constructor
  · simp only [get_credentials, save_credentials, if_true]
    rw [List.find?_append, find?_default_clear_eq_none, Option.none_or]
    simp
  · intro r hr hu hd
    simp only [save_credentials, if_true] at hr
    rcases List.mem_append.mp hr with hmem | hmem
    · rcases List.mem_map.mp hmem with ⟨r0, _, rfl⟩
      cases h0 : (r0.user_id == uid) with
      | false =>
        rw [h0, if_neg Bool.false_ne_true] at hu hd
        exact absurd hu (by simpa using Bool.eq_false_iff.mp h0 ∘ beq_iff_eq.mpr)
      | true =>
        rw [h0, if_pos rfl] at hd
        exact absurd hd (by simp)
    · rcases List.mem_singleton.mp hmem with rfl
      exact ⟨rfl, rfl⟩

/-- C7: with no prior row for `(owner, "s3")`, saving a credential blob
and reading it back through `get_credentials(owner, "s3")` returns
exactly the saved blob. -/
theorem save_get_roundtrip (db : DB) (uid : Nat) (c : Json)
    (n : Option String) (md : Bool)
    (h : ∀ r ∈ db.cloud_credentials, ¬(r.user_id = uid ∧ r.provider = "s3")) :
    get_credentials (save_credentials db uid "s3" c n md) uid "s3" false =
      some c := by
  simp only [get_credentials, save_credentials, Bool.false_eq_true, if_false]
  rw [List.find?_append, find?_userprov_clear_eq_none db.cloud_credentials uid "s3" md h,
    Option.none_or]
  simp

/-- Witness for C7: the claim's concrete s3 blob round-trips through an
empty store. -/
theorem save_get_roundtrip_witness :
    get_credentials
      (save_credentials dbEmpty 1 "s3"
        (Json.obj [("access_key", Json.str "A"),
          ("secret_key", Json.str "B"),
          ("region", Json.str "us-east-1")]) none false) 1 "s3" false =
      some (Json.obj [("access_key", Json.str "A"),
        ("secret_key", Json.str "B"),
        ("region", Json.str "us-east-1")]) :=
  save_get_roundtrip dbEmpty 1 _ none false (by simp [dbEmpty])

/-- C9: with no prior row for `(owner, provider)`, two successive saves
for the same provider insert two rows (no uniqueness constraint fires),
and the lookup — no `ORDER BY`, first row fetched — keeps returning the
earlier blob, not the later one. -/
theorem duplicate_save_returns_first (db : DB) (uid : Nat) (p : String)
    (c1 c2 : Json) (n1 n2 : Option String)
    (h : ∀ r ∈ db.cloud_credentials, ¬(r.user_id = uid ∧ r.provider = p)) :
    get_credentials
      (save_credentials (save_credentials db uid p c1 n1 false)
        uid p c2 n2 false) uid p false = some c1 ∧
    (c1 ≠ c2 →
      get_credentials
        (save_credentials (save_credentials db uid p c1 n1 false)
          uid p c2 n2 false) uid p false ≠ some c2) := by
  have h1 : get_credentials
      (save_credentials (save_credentials db uid p c1 n1 false)
        uid p c2 n2 false) uid p false = some c1 := by
    have hnone : (db.cloud_credentials.find? fun r =>
        r.user_id == uid && r.provider == p) = none := by
      rw [List.find?_eq_none]
      intro x hx hc
      rcases Bool.and_eq_true _ _ |>.mp hc with ⟨ha, hb⟩
      exact h x hx ⟨beq_iff_eq.mp ha, beq_iff_eq.mp hb⟩
    simp only [get_credentials, save_credentials, Bool.false_eq_true,
      if_false]
    rw [List.append_assoc, List.find?_append, hnone, Option.none_or]
    simp
  refine ⟨h1, fun hne heq => hne ?_⟩
  rw [h1] at heq
  exact Option.some.inj heq

/-- Witness for C9: two saves of distinct blobs into an empty store;
the read returns the first. -/
theorem duplicate_save_returns_first_witness :
    get_credentials
      (save_credentials (save_credentials dbEmpty 1 "s3"
          (Json.str "one") none false) 1 "s3" (Json.str "two") none
        false) 1 "s3" false = some (Json.str "one") ∧
    (Json.str "one" ≠ Json.str "two" →
      get_credentials
        (save_credentials (save_credentials dbEmpty 1 "s3"
            (Json.str "one") none false) 1 "s3" (Json.str "two") none
          false) 1 "s3" false ≠ some (Json.str "two")) :=
  duplicate_save_returns_first dbEmpty 1 "s3" (Json.str "one")
    (Json.str "two") none none (by simp [dbEmpty])

/-- Counterexample for C5 as stated: with no credentials stored at all
for the owner, the rclone variant raises no credential-missing error —
it never consults the credential store and succeeds whenever the
external command does. -/
theorem rclone_no_credential_check_counterexample :
    get_credentials dbEmpty 1 "rclone" false = none ∧
    backup_to_rclone envOk
      "/tmp/easyinstall-webui/backup-20250101-120000.tar.gz" "rem"
      "pth" =
      Except.ok "rclone://rem:pth/backup-20250101-120000.tar.gz" :=
  ⟨rfl, rfl⟩

/-- C5 (amended): for the s3 and gdrive variants, a provider with no
stored credentials raises a credential-missing error, and
`create_backup` confines the failure to that destination (a succeeding
sibling's URI is still returned); the rclone variant performs no
stored-credential check and succeeds whenever the external command
does. -/
theorem credential_missing_s3_gdrive_only
    (env : Env) (db : DB) (uid : Nat) (jid : Option Nat)
    (f b pk : String) (fid : Option String) (rm pth : String)
    (cA cB : UploadConfig) (pB uB : String)
    (hs3 : get_credentials db uid "s3" false = none)
    (hgd : get_credentials db uid "gdrive" false = none)
    (hsnap : env.snapshotOk = true)
    (hdest : jobDest db jid = some [("s3", cA), (pB, cB)])
    (hB : runAdapter env db uid (backupFilePath env) pB cB =
      some (Except.ok uB)) :
    backup_to_s3 env db uid f b pk =
      Except.error "S3 credentials not configured" ∧
    backup_to_gdrive env db uid f fid =
      Except.error "Google Drive credentials not configured" ∧
    (∀ r, env.rcloneCall f rm pth = Except.ok r →
      backup_to_rclone env f rm pth =
        Except.ok ("rclone://" ++ rm ++ ":" ++ pth ++ "/" ++ basename f)) ∧
    (create_backup env db uid jid).1 =
      Except.ok (backupFilePath env, [uB]) := by
  have hA : runAdapter env db uid (backupFilePath env) "s3" cA =
      some (Except.error "S3 credentials not configured") := by
    simp [runAdapter, backup_to_s3, hs3]
  have hfold : [("s3", cA), (pB, cB)].foldl
      (uploadStep env db uid (backupFilePath env)) ([], none) =
      ([uB], some uB) := by
    simp [uploadStep, hA, hB]
  exact ⟨by simp [backup_to_s3, hs3], by simp [backup_to_gdrive, hgd],
    fun r hr => by simp [backup_to_rclone, hr],
    by simp [create_backup, hsnap, hdest, hfold]⟩

/-- Witness for the amended C5: `dbJobs` stores no credentials; job 7
pairs an s3 destination with an rclone one, and only the rclone URI
comes back. -/
theorem credential_missing_s3_gdrive_only_witness :
    backup_to_s3 envOk dbJobs 1 "/a/f.gz" "bkt" "pre" =
      Except.error "S3 credentials not configured" ∧
    backup_to_gdrive envOk dbJobs 1 "/a/f.gz" none =
      Except.error "Google Drive credentials not configured" ∧
    (∀ r, envOk.rcloneCall "/a/f.gz" "rem" "pth" = Except.ok r →
      backup_to_rclone envOk "/a/f.gz" "rem" "pth" =
        Except.ok ("rclone://" ++ "rem" ++ ":" ++ "pth" ++ "/" ++
          basename "/a/f.gz")) ∧
    (create_backup envOk dbJobs 1 (some 7)).1 =
      Except.ok (backupFilePath envOk,
        ["rclone://rem:pth/backup-20250101-120000.tar.gz"]) :=
  credential_missing_s3_gdrive_only envOk dbJobs 1 (some 7) "/a/f.gz"
    "bkt" "pre" none "rem" "pth" cfgS3 cfgRclone "rclone"
    "rclone://rem:pth/backup-20250101-120000.tar.gz" rfl rfl rfl rfl rfl

/-- `String.data` distributes over append. -/
theorem data_append (s t : String) : (s ++ t).data = s.data ++ t.data := by
  cases s; cases t; rfl

/-- No string is both an `s3://`- and a `gdrive://`-tagged URI. -/
theorem s3_ne_gdrive (x y : String) : "s3://" ++ x ≠ "gdrive://" ++ y := by
  intro h
  have h2 := congrArg String.data h
  rw [data_append, data_append,
    show "s3://".data = ['s', '3', ':', '/', '/'] from rfl,
    show "gdrive://".data =
      ['g', 'd', 'r', 'i', 'v', 'e', ':', '/', '/'] from rfl] at h2
  simp at h2

/-- No string is both an `s3://`- and an `rclone://`-tagged URI. -/
theorem s3_ne_rclone (x y : String) : "s3://" ++ x ≠ "rclone://" ++ y := by
  intro h
  have h2 := congrArg String.data h
  rw [data_append, data_append,
    show "s3://".data = ['s', '3', ':', '/', '/'] from rfl,
    show "rclone://".data =
      ['r', 'c', 'l', 'o', 'n', 'e', ':', '/', '/'] from rfl] at h2
  simp at h2

/-- No string is both a `gdrive://`- and an `rclone://`-tagged URI. -/
theorem gdrive_ne_rclone (x y : String) :
    "gdrive://" ++ x ≠ "rclone://" ++ y := by
  intro h
  have h2 := congrArg String.data h
  rw [data_append, data_append,
    show "gdrive://".data =
      ['g', 'd', 'r', 'i', 'v', 'e', ':', '/', '/'] from rfl,
    show "rclone://".data =
      ['r', 'c', 'l', 'o', 'n', 'e', ':', '/', '/'] from rfl] at h2
  simp at h2

/-- C8: every successfully returned location URI carries its provider's
tag — `s3://…` for object storage, `gdrive://…` for the drive variant,
`rclone://…` for remote sync — and the three tags are mutually
exclusive prefixes, so the provider is identifiable from the URI scheme
alone. -/
theorem location_uris_provider_tagged
    (env : Env) (db : DB) (uid : Nat) (f b pk : String)
    (fid : Option String) (rm pth : String) (us ug ur : String)
    (hs : backup_to_s3 env db uid f b pk = Except.ok us)
    (hg : backup_to_gdrive env db uid f fid = Except.ok ug)
    (hr : backup_to_rclone env f rm pth = Except.ok ur) :
    (∃ rest, us = "s3://" ++ rest) ∧
    (∃ rest, ug = "gdrive://" ++ rest) ∧
    (∃ rest, ur = "rclone://" ++ rest) ∧
    (∀ x y : String,
      "s3://" ++ x ≠ "gdrive://" ++ y ∧
      "s3://" ++ x ≠ "rclone://" ++ y ∧
      "gdrive://" ++ x ≠ "rclone://" ++ y) := by
  refine ⟨?_, ?_, ?_, fun x y =>
    ⟨s3_ne_gdrive x y, s3_ne_rclone x y, gdrive_ne_rclone x y⟩⟩
  · simp only [backup_to_s3] at hs
    split at hs
    · simp at hs
    · split at hs
      · refine ⟨b ++ ("/" ++ (pk ++ "/" ++ basename f)), ?_⟩
        have he := Except.ok.inj hs
        rw [← he, String.append_assoc, String.append_assoc]
      · simp at hs
  · simp only [backup_to_gdrive] at hg
    split at hg
    · simp at hg
    · split at hg
      · exact ⟨_, (Except.ok.inj hg).symm⟩
      · simp at hg
  · simp only [backup_to_rclone] at hr
    split at hr
    · refine ⟨rm ++ (":" ++ (pth ++ ("/" ++ basename f))), ?_⟩
      have he := Except.ok.inj hr
      rw [← he]
      simp [String.append_assoc]
    · simp at hr

/-- A database holding s3 and gdrive credentials for user 1. -/
def dbCreds : DB :=
  ⟨[⟨1, "s3", Json.str "k", none, false⟩,
    ⟨1, "gdrive", Json.str "t", none, false⟩], [], []⟩

/-- Witness for C8: concrete URIs from all three adapters under
`envOk` and `dbCreds`. -/
theorem location_uris_provider_tagged_witness :
    (∃ rest, "s3://bkt/pre/backup-20250101-120000.tar.gz" =
      "s3://" ++ rest) ∧
    (∃ rest, "gdrive://FILEID" = "gdrive://" ++ rest) ∧
    (∃ rest, "rclone://rem:pth/backup-20250101-120000.tar.gz" =
      "rclone://" ++ rest) ∧
    ("s3://" ++ "a" ≠ "gdrive://" ++ "b" ∧
     "s3://" ++ "a" ≠ "rclone://" ++ "b" ∧
     "gdrive://" ++ "a" ≠ "rclone://" ++ "b") :=
  have h := location_uris_provider_tagged envOk dbCreds 1
    (backupFilePath envOk) "bkt" "pre" none "rem" "pth"
    "s3://bkt/pre/backup-20250101-120000.tar.gz" "gdrive://FILEID"
    "rclone://rem:pth/backup-20250101-120000.tar.gz" rfl rfl rfl
  ⟨h.1, h.2.1, h.2.2.1, h.2.2.2 "a" "b"⟩
